import Mathlib

/-!
Verification of the autoreduce run-lifecycle orchestrator and configuration
resolver, shallowly embedded from
`queue_processors/queue_processor/handle_message.py` and
`queue_processors/queue_processor/instrument_variable_utils.py`.

Times are modelled as natural numbers (the code only ever stamps
`datetime.datetime.utcnow()` into a field); database persistence is modelled
by threading an explicit store (a list of rows) through the operations, with
`safe_save` represented by the updated record appearing in the returned
state.
-/

set_option autoImplicit false

namespace Autoreduce

/-- Run statuses. The database status records carry one-letter `value`
fields which `handle_message.py` compares against directly
(`'q'`, `'p'`, `'c'`, `'s'`, `'e'`). -/
inductive Status where
  | queued
  | processing
  | completed
  | skipped
  | error
  deriving DecidableEq, Repr

/-- The one-letter `value` column of a status record, as compared by
`reduction_started` (`['e', 'q']`) and `reduction_complete` (`'p'`). -/
def Status.value : Status → Char
  | .queued => 'q'
  | .processing => 'p'
  | .completed => 'c'
  | .skipped => 's'
  | .error => 'e'

/-- Exceptions that the embedded operations can raise.  `invalidState`
embeds `InvalidStateException`; `typeError` embeds a Python `TypeError`
(raised, e.g., when a method is called with the wrong number of arguments);
`multipleObjectsReturned` and `keyError` embed the Django and Python
exceptions of those names. -/
inductive Exc where
  | invalidState
  | typeError
  | multipleObjectsReturned
  | keyError
  deriving DecidableEq, Repr

/-- The message envelope (`model.message.message.Message`), restricted to
the fields `handle_message.py` reads and writes. -/
structure Msg where
  run_number : Nat
  rb_number : Nat
  run_version : Nat
  message : Option String
  reduction_log : Option String
  admin_log : Option String
  reduction_data : Option (List String)
  deriving DecidableEq, Repr

/-- The mutable fields of a `ReductionRun` database record that the
lifecycle handlers touch. -/
structure ReductionRun where
  status : Status
  started : Option Nat
  finished : Option Nat
  message : Option String
  reduction_log : Option String
  admin_log : Option String
  deriving DecidableEq, Repr

/-- `HandleMessage.reduction_started`: if the run's status value is not in
`['e', 'q']` an `InvalidStateException` is raised; otherwise the status is
set to Processing, the start time is stamped and the run is saved
(`safe_save`), represented here by the updated record being returned. -/
def reduction_started (reduction_run : ReductionRun) (now : Nat) :
    Except Exc ReductionRun :=
  if reduction_run.status.value ∉ (['e', 'q'] : List Char) then
    .error .invalidState
  else
    .ok { reduction_run with status := .processing, started := some now }

/-- `HandleMessage._common_reduction_run_update`: sets status, finish time,
user message and logs on the run record. -/
def common_reduction_run_update (reduction_run : ReductionRun) (status : Status)
    (message : Msg) (now : Nat) : ReductionRun :=
  { reduction_run with
    status := status
    finished := some now
    message := message.message
    reduction_log := message.reduction_log
    admin_log := message.admin_log }

/-- `HandleMessage.reduction_complete`: raises `InvalidStateException`
unless the run's status value is `'p'`; otherwise applies the common update
with status Completed and saves one new `ReductionLocation` row per entry of
`message.reduction_data` (none when that field is `None`), then saves the
run.  The second component of the result is the list of file paths of the
`ReductionLocation` rows saved. -/
def reduction_complete (reduction_run : ReductionRun) (message : Msg) (now : Nat) :
    Except Exc (ReductionRun × List String) :=
  if ¬ reduction_run.status.value = 'p' then
    .error .invalidState
  else
    .ok (common_reduction_run_update reduction_run .completed message now,
         message.reduction_data.getD [])

/-- `HandleMessage.reduction_error`: applies the common update with status
Error and saves the run.  The source performs no status check in this
handler (unlike `reduction_complete`), so the embedding is a total
function. -/
def reduction_error (reduction_run : ReductionRun) (message : Msg) (now : Nat) :
    ReductionRun :=
  common_reduction_run_update reduction_run .error message now

/-- `HandleMessage.reduction_skipped`: applies the common update with status
Skipped and saves the run; no status check. -/
def reduction_skipped (reduction_run : ReductionRun) (message : Msg) (now : Nat) :
    ReductionRun :=
  common_reduction_run_update reduction_run .skipped message now

/-- C1: `reduction_started` raises an illegal-transition fault
(`InvalidStateException`) when the run's status is Completed, Skipped or
already Processing; when the status is Queued or Error it sets the status
to Processing, stamps the start time and persists the run. -/
theorem reduction_started_spec (reduction_run : ReductionRun) (now : Nat) :
    (reduction_run.status ∈ [Status.completed, Status.skipped, Status.processing] →
      reduction_started reduction_run now = .error .invalidState) ∧
    (reduction_run.status ∈ [Status.queued, Status.error] →
      reduction_started reduction_run now =
        .ok { reduction_run with status := .processing, started := some now }) := by
  obtain ⟨st, s₁, s₂, s₃, s₄, s₅⟩ := reduction_run
  cases st <;> simp [reduction_started, Status.value]

/-- Witness for C1 at concrete runs: a Completed run faults, a Queued run
transitions to Processing with the start time stamped. -/
theorem reduction_started_spec_witness :
    reduction_started ⟨.completed, none, none, none, none, none⟩ 5 =
      .error .invalidState ∧
    reduction_started ⟨.queued, none, none, none, none, none⟩ 5 =
      .ok ⟨.processing, some 5, none, none, none, none⟩ := by
  exact ⟨(reduction_started_spec ⟨.completed, none, none, none, none, none⟩ 5).1 (by decide),
         (reduction_started_spec ⟨.queued, none, none, none, none, none⟩ 5).2 (by decide)⟩

/-- Counterexample to C2 as stated: on a run whose status is Queued (hence
not Processing), `reduction_error` does not raise an illegal-transition
fault; it updates the run to Error, stamps the finish time and persists. -/
theorem reduction_error_no_check_cex :
    reduction_error ⟨.queued, none, none, none, none, none⟩
        ⟨100, 1234567, 0, some "boom", none, none, none⟩ 9 =
      ⟨.error, none, some 9, some "boom", none, none⟩ ∧
    decide (Status.queued = Status.processing) = false := by
  exact ⟨rfl, by decide⟩

/-- C2 (amended): `reduction_complete` asserts the precondition
`status == Processing` and raises an illegal-transition fault otherwise;
`reduction_error` performs no such check: for every current status it sets
the status to Error, stamps the finish time, copies the message and log
fields, and persists the run. -/
theorem reduction_error_updates_without_precondition
    (reduction_run : ReductionRun) (message : Msg) (now : Nat) :
    reduction_error reduction_run message now =
      { reduction_run with
        status := .error
        finished := some now
        message := message.message
        reduction_log := message.reduction_log
        admin_log := message.admin_log } ∧
    (reduction_run.status ≠ .processing →
      reduction_complete reduction_run message now = .error .invalidState) := by
  refine ⟨rfl, fun h => ?_⟩
  obtain ⟨st, s₁, s₂, s₃, s₄, s₅⟩ := reduction_run
  cases st <;> simp_all [reduction_complete, Status.value]

/-- Witness for the amended C2 at a concrete Skipped run: the Error
transition updates it unconditionally and the Completed transition
faults. -/
theorem reduction_error_updates_without_precondition_witness :
    reduction_error ⟨.skipped, none, none, none, none, none⟩
        ⟨1, 2, 0, none, none, none, none⟩ 4 =
      ⟨.error, none, some 4, none, none, none⟩ ∧
    reduction_complete ⟨.skipped, none, none, none, none, none⟩
        ⟨1, 2, 0, none, none, none, none⟩ 4 = .error .invalidState := by
  have h := reduction_error_updates_without_precondition
    ⟨.skipped, none, none, none, none, none⟩ ⟨1, 2, 0, none, none, none, none⟩ 4
  exact ⟨h.1, h.2 (by decide)⟩

/-- C3: `reduction_complete` raises an illegal-transition fault when the
run's status is not Processing; when the status is Processing and the
result message carries no error text it sets the status to Completed,
stamps the finish time and persists exactly one new `ReductionLocation`
per output location listed in `message.reduction_data`. -/
theorem reduction_complete_spec (reduction_run : ReductionRun) (message : Msg)
    (now : Nat) :
    (reduction_run.status ≠ .processing →
      reduction_complete reduction_run message now = .error .invalidState) ∧
    (reduction_run.status = .processing → message.message = none →
      reduction_complete reduction_run message now =
        .ok ({ reduction_run with
                status := .completed
                finished := some now
                message := none
                reduction_log := message.reduction_log
                admin_log := message.admin_log },
             message.reduction_data.getD [])) := by
  constructor
  · intro h
    obtain ⟨st, s₁, s₂, s₃, s₄, s₅⟩ := reduction_run
    cases st <;> simp_all [reduction_complete, Status.value]
  · intro h hmsg
    obtain ⟨st, s₁, s₂, s₃, s₄, s₅⟩ := reduction_run
    cases st <;> simp_all [reduction_complete, common_reduction_run_update, Status.value]

/-- Witness for C3: a Queued run faults; a Processing run with no error
text and two output locations completes with exactly those two
ReductionLocation rows. -/
theorem reduction_complete_spec_witness :
    (reduction_complete ⟨.queued, none, none, none, none, none⟩
        ⟨1, 2, 0, none, none, none, some ["/out/a", "/out/b"]⟩ 8 =
      .error .invalidState) ∧
    (reduction_complete ⟨.processing, some 3, none, none, none, none⟩
        ⟨1, 2, 0, none, none, none, some ["/out/a", "/out/b"]⟩ 8 =
      .ok (⟨.completed, some 3, some 8, none, none, none⟩, ["/out/a", "/out/b"])) := by
  refine ⟨(reduction_complete_spec ⟨.queued, none, none, none, none, none⟩
            ⟨1, 2, 0, none, none, none, some ["/out/a", "/out/b"]⟩ 8).1 (by decide), ?_⟩
  exact (reduction_complete_spec ⟨.processing, some 3, none, none, none, none⟩
          ⟨1, 2, 0, none, none, none, some ["/out/a", "/out/b"]⟩ 8).2 rfl rfl

/-- The identity and version fields of a persisted `ReductionRun` row, as
used when computing run versions. -/
structure RunRecord where
  run_number : Nat
  rb_number : Nat
  run_version : Nat
  status : Status
  deriving DecidableEq, Repr

/-- Modelled from the spec: `db_access.find_highest_run_version` lives in
`model.database.access`, which is not part of the sources; the spec states
that the assigned run version is the smallest non-negative integer strictly
greater than every existing version for the same (instrument, run_number)
experiment scope — 0 when there is none. -/
def find_highest_run_version (existing : List Nat) : Nat :=
  existing.foldl (fun acc v => max acc (v + 1)) 0

/-- The rows of the store that belong to the same (run_number, experiment)
scope as the message, i.e. the scope over which run versions are
computed. -/
def scoped_runs (store : List RunRecord) (message : Msg) : List RunRecord :=
  store.filter fun r => r.run_number == message.run_number && r.rb_number == message.rb_number

/-- `HandleMessage.data_ready`, restricted to the steps the claims are
about: the initial status is Skipped when the instrument is paused and
Queued otherwise; the run version is computed from the existing runs of the
same (run_number, experiment) scope; then the current script text is
checked.  When the script text is `None` the source executes
`self.reduction_error(message)` — a call with a single argument to a method
whose signature is `reduction_error(self, reduction_run, message)` — so
Python raises `TypeError` at the call site, before the
`InvalidStateException` on the next line can be raised and without any run
being updated; the embedding therefore returns `Exc.typeError` there.
Otherwise the new run row is persisted and returned together with the
updated store. -/
def data_ready (store : List RunRecord) (message : Msg) (is_paused : Bool)
    (script_text : Option String) : Except Exc (List RunRecord × RunRecord) :=
  let status := if is_paused then Status.skipped else Status.queued
  let run_version := find_highest_run_version ((scoped_runs store message).map (·.run_version))
  match script_text with
  | none => .error .typeError
  | some _ =>
    let reduction_run : RunRecord :=
      { run_number := message.run_number
        rb_number := message.rb_number
        run_version := run_version
        status := status }
    .ok (store ++ [reduction_run], reduction_run)

/-- Iterates `data_ready` for `k` successive "data ready" events carrying
the same message identity, threading the store; an event that raises leaves
the store as it was. -/
def data_ready_iter (message : Msg) (is_paused : Bool) (script_text : Option String) :
    List RunRecord → Nat → List RunRecord
  | store, 0 => store
  | store, k + 1 =>
    match data_ready store message is_paused script_text with
    | .ok (store2, _) => data_ready_iter message is_paused script_text store2 k
    | .error _ => store

theorem find_highest_run_version_range (k : Nat) :
    find_highest_run_version (List.range k) = k := by
  induction k with
  | zero => rfl
  | succ n ih =>
    rw [List.range_succ]
    simp only [find_highest_run_version, List.foldl_append, List.foldl_cons, List.foldl_nil]
    simp only [find_highest_run_version] at ih
    omega

theorem scoped_runs_append (store l : List RunRecord) (message : Msg) :
    scoped_runs (store ++ l) message = scoped_runs store message ++ scoped_runs l message := by
  simp [scoped_runs]

theorem data_ready_iter_versions (message : Msg) (is_paused : Bool) (s : String)
    (store : List RunRecord) (j k : Nat)
    (h : (scoped_runs store message).map (·.run_version) = List.range j) :
    (scoped_runs (data_ready_iter message is_paused (some s) store k) message).map
      (·.run_version) = List.range (j + k) := by
  induction k generalizing store j with
  | zero => simpa using h
  | succ n ih =>
    rw [data_ready_iter]
    simp only [data_ready]
    have hnext :
        (scoped_runs (store ++
          [{ run_number := message.run_number, rb_number := message.rb_number,
             run_version := find_highest_run_version
               ((scoped_runs store message).map (·.run_version)),
             status := if is_paused then Status.skipped else Status.queued }]) message).map
          (·.run_version) = List.range (j + 1) := by
      rw [scoped_runs_append]
      simp only [h, find_highest_run_version_range, List.map_append]
      rw [List.range_succ]
      simp [scoped_runs]
    have := ih _ (j + 1) hnext
    simpa [Nat.add_assoc, Nat.add_comm, Nat.add_left_comm] using this

/-- C4: starting from a store holding no run of the same
(run_number, experiment) scope, a sequence of `k` "data ready" events for
that scope (with a script present) assigns run versions `0, 1, …, k-1` in
order: the versions of the newly created `ReductionRun` rows are strictly
increasing, starting at 0 for the first run. -/
theorem data_ready_run_version_increasing (message : Msg) (is_paused : Bool)
    (s : String) (store : List RunRecord) (k : Nat)
    (h : scoped_runs store message = []) :
    (scoped_runs (data_ready_iter message is_paused (some s) store k) message).map
        (·.run_version) = List.range k ∧
    List.Pairwise (· < ·)
      ((scoped_runs (data_ready_iter message is_paused (some s) store k) message).map
        (·.run_version)) := by
  have hmain := data_ready_iter_versions message is_paused s store 0 k (by simp [h])
  simp only [Nat.zero_add] at hmain
  exact ⟨hmain, hmain ▸ List.pairwise_lt_range k⟩

/-- Witness for C4: three events on an empty store yield versions
`[0, 1, 2]`. -/
theorem data_ready_run_version_increasing_witness :
    (scoped_runs (data_ready_iter ⟨100, 1234567, 0, none, none, none, none⟩ false
        (some "print(1)") [] 3) ⟨100, 1234567, 0, none, none, none, none⟩).map
      (·.run_version) = List.range 3 ∧
    List.Pairwise (· < ·)
      ((scoped_runs (data_ready_iter ⟨100, 1234567, 0, none, none, none, none⟩ false
          (some "print(1)") [] 3) ⟨100, 1234567, 0, none, none, none, none⟩).map
        (·.run_version)) :=
  data_ready_run_version_increasing ⟨100, 1234567, 0, none, none, none, none⟩ false
    "print(1)" [] 3 rfl

/-- C5 failing input: a "data ready" event whose instrument has no current
script text.  The source intends to transition the run to Error and raise
`InvalidStateException`, but `self.reduction_error(message)` is called with
one argument where two are required, so the handler raises `TypeError`
instead and no run is transitioned to Error: the store gains no row and the
exception is not `InvalidStateException`. -/
theorem data_ready_null_script_raises_type_error :
    data_ready [] ⟨100, 1234567, 0, none, none, none, none⟩ false none =
      .error .typeError ∧
    decide (Exc.typeError = Exc.invalidState) = false := by
  exact ⟨rfl, by decide⟩

/-- A Python value appearing in a reduce_vars module or in override
arguments.  Per the spec's tagged union {String, Integer, Float, Boolean,
List of String}, list payloads are strings; floats are not modelled. -/
inductive PyValue where
  | pstr (s : String)
  | pint (n : Int)
  | pbool (b : Bool)
  | plist (l : List String)
  deriving DecidableEq, Repr

/-- Python `repr` of a string, as it appears inside `str` of a list. -/
def py_quote (s : String) : String := "\x27" ++ s ++ "\x27"

/-- Python `str(value)`, as used by `find_or_make_variables` to serialise a
default value before stripping brackets. -/
def pyStr : PyValue → String
  | .pstr s => s
  | .pint n => toString n
  | .pbool b => if b then "True" else "False"
  | .plist l => "[" ++ String.intercalate ", " (l.map py_quote) ++ "]"

/-- Modelled from the spec: `VariableUtils.get_type_string` (module
`queue_processors.queue_processor.variable_utils`, not under src) infers a
type tag from a value's literal form (string/number/boolean/list). -/
def get_type_string : PyValue → String
  | .pstr _ => "text"
  | .pint _ => "number"
  | .pbool _ => "boolean"
  | .plist _ => "list_text"

/-- Value of a decimal digit character, if it is one. -/
def digit_val (c : Char) : Option Nat :=
  if 47 < c.toNat && c.toNat < 58 then some (c.toNat - 48) else none

/-- Decimal parse of a non-empty digit string. -/
def parse_nat : List Char → Option Nat
  | [] => none
  | l =>
    l.foldl
      (fun acc c =>
        match acc, digit_val c with
        | some a, some d => some (a * 10 + d)
        | _, _ => none)
      (some 0)

/-- Python `int(s)` on a decimal literal, as an option. -/
def py_parse_int (s : String) : Option Int :=
  match s.data with
  | '-' :: rest => (parse_nat rest).map (fun n => -(n : Int))
  | l => (parse_nat l).map (fun n => (n : Int))

/-- Modelled from the spec: the integer coercion used by
`VariableUtils.convert_variable_to_type` (not under src). -/
def py_to_int : PyValue → Int
  | .pstr s => (py_parse_int s).getD 0
  | .pint n => n
  | .pbool b => if b then 1 else 0
  | .plist _ => 0

/-- Modelled from the spec: the boolean coercion used by
`VariableUtils.convert_variable_to_type` (not under src). -/
def py_truthy : PyValue → Bool
  | .pstr s => !s.isEmpty
  | .pint n => n != 0
  | .pbool b => b
  | .plist l => !l.isEmpty

/-- Modelled from the spec: `VariableUtils.convert_variable_to_type` (not
under src) coerces a value to the given type tag, regardless of the value's
own literal form. -/
def convert_variable_to_type (value : PyValue) (target : String) : PyValue :=
  if target = "text" then .pstr (pyStr value)
  else if target = "number" then .pint (py_to_int value)
  else if target = "boolean" then .pbool (py_truthy value)
  else if target = "list_text" then
    match value with
    | .plist l => .plist l
    | v => .plist [pyStr v]
  else value

/-- A Python dict of variable name to value, in insertion order. -/
abbrev VarDict := List (String × PyValue)

/-- Python `d[k]` lookup (as an option). -/
def dictFind (d : VarDict) (k : String) : Option PyValue :=
  (d.find? fun p => p.1 == k).map (·.2)

/-- Python dict assignment `d[k] = v`: replaces the entry when the key is
present, appends otherwise. -/
def dictSet : VarDict → String → PyValue → VarDict
  | [], k, v => [(k, v)]
  | p :: rest, k, v => if p.1 == k then (k, v) :: rest else p :: dictSet rest k v

/-- The per-entry loop of `InstrumentVariablesUtils.set_with_correct_type`:
for each override `(name, value)` the source evaluates
`reduction_args[dict_name][name]` — raising `KeyError` when the name is not
among the script defaults — and assigns the override value coerced to that
entry's established type. -/
def set_with_correct_type_loop : List (String × PyValue) → VarDict → Except Exc VarDict
  | [], acc => .ok acc
  | entry :: rest, acc =>
    match dictFind acc entry.1 with
    | none => .error .keyError
    | some cur =>
      set_with_correct_type_loop rest
        (dictSet acc entry.1 (convert_variable_to_type entry.2 (get_type_string cur)))

/-- `InstrumentVariablesUtils.set_with_correct_type` acting on one of the
two dicts; `none` models `dict_name` being absent from
`message_reduction_arguments`, in which case the guard
`dict_name in message_reduction_arguments` fails and nothing happens. -/
def set_with_correct_type_dict (message_dict : Option (List (String × PyValue)))
    (args_dict : VarDict) : Except Exc VarDict :=
  match message_dict with
  | none => .ok args_dict
  | some entries => set_with_correct_type_loop entries args_dict

/-- Help text maps: dict name ("standard_vars"/"advanced_vars") to a map of
variable name to raw help text. -/
abbrev HelpDict := List (String × List (String × String))

/-- A loaded reduce_vars module.  Its `standard_vars` and `advanced_vars`
attributes are references to heap-allocated dicts (`none` when the module
lacks the attribute, in which case `getattr(module, ..., {})` yields an
empty dict). -/
structure ReduceVarsModule where
  standard_vars : Option Nat
  advanced_vars : Option Nat
  variable_help : HelpDict
  deriving DecidableEq, Repr

/-- The `reduction_arguments` field of an inbound message: optional
override dicts, passed by value (the message is owned by this event). -/
structure ReductionArguments where
  standard_vars : Option (List (String × PyValue))
  advanced_vars : Option (List (String × PyValue))
  deriving DecidableEq, Repr

/-- The merged argument map built by `merge_arguments` (the value contents;
mutation of the underlying heap cells is tracked separately). -/
structure MergedArgs where
  standard_vars : VarDict
  advanced_vars : VarDict
  variable_help : HelpDict
  deriving DecidableEq, Repr

/-- Dereference a module dict attribute against the heap;
`getattr(module, ..., {})` yields an empty dict for a missing attribute. -/
def heap_dict (heap : List VarDict) (addr : Option Nat) : VarDict :=
  match addr with
  | none => []
  | some a => (heap[a]?).getD []

/-- `InstrumentVariablesUtils.merge_arguments`.  Python dict values are heap
objects, so the heap is modelled explicitly to make `deepcopy` visible:
`reduction_args` is built from deep copies of the module's dicts placed in
fresh cells, and `set_with_correct_type` mutates those fresh cells, never
the module's own. -/
def merge_arguments (heap : List VarDict)
    (message_reduction_arguments : ReductionArguments)
    (reduce_vars_module : ReduceVarsModule) :
    Except Exc (List VarDict × MergedArgs) :=
  let std0 := heap_dict heap reduce_vars_module.standard_vars
  let adv0 := heap_dict heap reduce_vars_module.advanced_vars
  let std_addr := heap.length
  let adv_addr := heap.length + 1
  let heap1 := heap ++ [std0, adv0]
  match set_with_correct_type_dict message_reduction_arguments.standard_vars std0 with
  | .error e => .error e
  | .ok std1 =>
    match set_with_correct_type_dict message_reduction_arguments.advanced_vars adv0 with
    | .error e => .error e
    | .ok adv1 =>
      .ok ((heap1.set std_addr std1).set adv_addr adv1,
           { standard_vars := std1, advanced_vars := adv1,
             variable_help := reduce_vars_module.variable_help })

/-- Python `html.escape` with quoting, as called by
`_replace_special_chars`. -/
def html_escape (s : String) : String :=
  ((((s.replace "&" "&amp;").replace "<" "&lt;").replace ">" "&gt;").replace
    "\"" "&quot;").replace "\x27" "&#x27;"

/-- `instrument_variable_utils._replace_special_chars`: HTML-escape, then
convert newlines and tabs to display markup. -/
def replace_special_chars (help_text : String) : String :=
  ((html_escape help_text).replace "\n" "<br>").replace "\t" "&nbsp;&nbsp;&nbsp;&nbsp;"

/-- `InstrumentVariablesUtils.get_help_text`. -/
def get_help_text (dict_name : String) (key : String)
    (reduction_arguments : MergedArgs) : String :=
  match reduction_arguments.variable_help.find? (fun p => p.1 == dict_name) with
  | some p =>
    match p.2.find? (fun q => q.1 == key) with
    | some q => replace_special_chars q.2
    | none => ""
  | none => ""

/-- An `InstrumentVariable` database row.  A run-range-scoped row has
`start_run = some n` and `experiment_reference = none`; an
experiment-scoped row has `experiment_reference = some r`. -/
structure InstrumentVariable where
  id : Nat
  name : String
  value : String
  type : String
  help_text : String
  is_advanced : Bool
  instrument_id : Nat
  tracks_script : Bool
  start_run : Option Nat
  experiment_reference : Option Nat
  deriving DecidableEq, Repr

/-- The primary key the database assigns to a freshly inserted row. -/
def next_id (store : List InstrumentVariable) : Nat :=
  (store.map (·.id)).foldl max 0 + 1

/-- `str(value).replace("[", "").replace("]", "")`: removing every
occurrence of one character and then of another equals filtering both
characters out. -/
def remove_brackets (s : String) : String :=
  String.mk (s.data.filter (fun c => c != '[' && c != ']'))

/-- SQL ordering key for `order_by("-start_run")`: `NULL` sorts below every
number (last in descending order). -/
def start_run_lt (a b : Option Nat) : Bool :=
  match a, b with
  | none, none => false
  | none, some _ => true
  | some _, none => false
  | some x, some y => x < y

/-- `order_by("-start_run").first()`: the row with the greatest
`start_run`; on ties (which the database orders arbitrarily) the embedding
keeps the earliest row. -/
def pick_latest (l : List InstrumentVariable) : Option InstrumentVariable :=
  l.foldl
    (fun best v =>
      match best with
      | none => some v
      | some b => if start_run_lt b.start_run v.start_run then some v else some b)
    none

/-- `InstrumentVariablesUtils._find_appropriate_variable`.
`possible.get(name=name, experiment_reference=expriment_reference)` raises
`MultipleObjectsReturned` when more than one row matches (Django's `get`
with a `None` value compares against SQL `NULL`); with no match
(`ObjectDoesNotExist`, caught) the latest row of that name by `start_run`
is taken instead. -/
def find_appropriate_variable (possible : List InstrumentVariable) (name : String)
    (expriment_reference : Option Nat) : Except Exc (Option InstrumentVariable) :=
  match possible.filter
      (fun v => v.name == name && v.experiment_reference == expriment_reference) with
  | [] => .ok (pick_latest (possible.filter (fun v => v.name == name)))
  | [v] => .ok (some v)
  | _ => .error .multipleObjectsReturned

/-- `InstrumentVariablesUtils._update_or_copy_if_changed`: compares the
resolved value, type and help text with the stored row; when any differs
and the row's `start_run` is not the current run number, the (in-memory)
row's primary key is cleared before saving, so the database inserts a new
row with the new values and `start_run = run_number`, leaving the old row
untouched; when `start_run` equals the run number the row is updated in
place; when nothing differs, nothing is saved. -/
def update_or_copy_if_changed (store : List InstrumentVariable)
    (var : InstrumentVariable) (new_value new_type new_help_text : String)
    (run_number : Nat) : List InstrumentVariable × InstrumentVariable :=
  let changed := new_value != var.value || new_type != var.type ||
    new_help_text != var.help_text
  if changed then
    let updated := { var with
      value := new_value, type := new_type, help_text := new_help_text }
    if var.start_run ≠ some run_number then
      let fresh := { updated with id := next_id store, start_run := some run_number }
      (store ++ [fresh], fresh)
    else
      (store.map fun v => if v.id == var.id then updated else v, updated)
  else
    (store, var)

/-- The body of the `for name, value, is_advanced in all_vars` loop of
`InstrumentVariablesUtils.find_or_make_variables`, threading the store and
the accumulated snapshot.  The query set `possible_variables` is a live
filter re-evaluated against the current store on every `get`/`filter`/
`create`.  On creation with an experiment reference the source assigns
`variable.reference_number`, which is not a field of the
`InstrumentVariable` model, so the inserted row keeps `NULL` scope columns
(modelled as `none`). -/
def find_or_make_loop (possible : InstrumentVariable → Bool) (run_number : Nat)
    (instrument_id : Nat) (reduction_arguments : MergedArgs)
    (experiment_reference : Option Nat) (tracks_script : Bool) (force_update : Bool) :
    List (String × PyValue × Bool) → List InstrumentVariable →
      List InstrumentVariable → Except Exc (List InstrumentVariable × List InstrumentVariable)
  | [], store, snapshot => .ok (store, snapshot)
  | entry :: rest, store, snapshot =>
    let name := entry.1
    let value := entry.2.1
    let is_advanced := entry.2.2
    let script_help_text :=
      get_help_text (if is_advanced then "advanced_vars" else "standard_vars")
        name reduction_arguments
    let script_value := remove_brackets (pyStr value)
    let script_type := get_type_string value
    match find_appropriate_variable (store.filter possible) name experiment_reference with
    | .error e => .error e
    | .ok none =>
      let created : InstrumentVariable :=
        { id := next_id store
          name := name
          value := script_value
          type := script_type
          help_text := script_help_text
          is_advanced := is_advanced
          instrument_id := instrument_id
          tracks_script := tracks_script
          start_run :=
            match experiment_reference with
            | some _ => none
            | none => some run_number
          experiment_reference := none }
      find_or_make_loop possible run_number instrument_id reduction_arguments
        experiment_reference tracks_script force_update rest
        (store ++ [created]) (snapshot ++ [created])
    | .ok (some var) =>
      if var.tracks_script || force_update then
        let result := update_or_copy_if_changed store var script_value script_type
          script_help_text run_number
        find_or_make_loop possible run_number instrument_id reduction_arguments
          experiment_reference tracks_script force_update rest
          result.1 (snapshot ++ [result.2])
      else
        find_or_make_loop possible run_number instrument_id reduction_arguments
          experiment_reference tracks_script force_update rest
          store (snapshot ++ [var])

/-- `InstrumentVariablesUtils.find_or_make_variables`: builds `all_vars`
from the standard (is_advanced false) and advanced (true) argument maps,
returns `[]` when there are none, and otherwise runs the per-name loop.
Returns the final store together with the snapshot of resulting rows. -/
def find_or_make_variables (store : List InstrumentVariable)
    (possible : InstrumentVariable → Bool) (run_number : Nat) (instrument_id : Nat)
    (reduction_arguments : MergedArgs) (experiment_reference : Option Nat)
    (tracks_script : Bool) (force_update : Bool) :
    Except Exc (List InstrumentVariable × List InstrumentVariable) :=
  let all_vars :=
    reduction_arguments.standard_vars.map (fun p => (p.1, p.2, false)) ++
    reduction_arguments.advanced_vars.map (fun p => (p.1, p.2, true))
  if all_vars.length = 0 then .ok (store, [])
  else
    find_or_make_loop possible run_number instrument_id reduction_arguments
      experiment_reference tracks_script force_update all_vars store []

/-- The `possible_variables` query of
`InstrumentVariablesUtils.create_run_variables`:
`Q(experiment_reference=experiment_reference) | Q(start_run__lte=run_number)`
restricted to the run's instrument (an SQL comparison against a `NULL`
`start_run` is not satisfied). -/
def possible_variables_filter (experiment_reference : Nat) (run_number : Nat)
    (instrument_id : Nat) (v : InstrumentVariable) : Bool :=
  (v.experiment_reference == some experiment_reference ||
    (match v.start_run with
     | some s => s ≤ run_number
     | none => false)) && v.instrument_id == instrument_id

/-- `InstrumentVariablesUtils.create_run_variables`: builds the candidate
query from the run's experiment reference and run number, merges the
message arguments with the reduce_vars module, and calls
`find_or_make_variables`.  The source does not forward the experiment
reference to `find_or_make_variables`, which therefore receives its default
`None` (and the defaults `tracks_script=True`, `force_update=False`). -/
def create_run_variables (store : List InstrumentVariable) (heap : List VarDict)
    (reduce_vars_module : ReduceVarsModule)
    (message_reduction_arguments : ReductionArguments)
    (experiment_reference : Nat) (run_number : Nat) (instrument_id : Nat) :
    Except Exc (List InstrumentVariable × List InstrumentVariable) :=
  match merge_arguments heap message_reduction_arguments reduce_vars_module with
  | .error e => .error e
  | .ok result =>
    find_or_make_variables store
      (possible_variables_filter experiment_reference run_number instrument_id)
      run_number instrument_id result.2 none true false

/-- C6: for a stored variable that tracks the script, when the resolved
value, type or help text differs from the stored row and the run number
differs from the row's `start_run`, resolution appends a new row carrying
the new values with `start_run = run_number` (and a fresh primary key) and
leaves every row of the existing store — the old row included — exactly as
it was; the new row is also the one returned into the snapshot. -/
theorem update_or_copy_copy_on_write (store : List InstrumentVariable)
    (var : InstrumentVariable) (new_value new_type new_help_text : String)
    (run_number : Nat)
    (_htracks : var.tracks_script = true)
    (hrun : var.start_run ≠ some run_number)
    (hchanged : new_value ≠ var.value ∨ new_type ≠ var.type ∨
      new_help_text ≠ var.help_text) :
    update_or_copy_if_changed store var new_value new_type new_help_text run_number =
      (store ++ [{ var with
          id := next_id store, value := new_value, type := new_type,
          help_text := new_help_text, start_run := some run_number }],
       { var with
          id := next_id store, value := new_value, type := new_type,
          help_text := new_help_text, start_run := some run_number }) := by
  have hch : (new_value != var.value || new_type != var.type ||
      new_help_text != var.help_text) = true := by
    simp only [Bool.or_eq_true, bne_iff_ne, ne_eq]
    tauto
  simp [update_or_copy_if_changed, hch, hrun]

/-- Witness for C6: a tracked row with `start_run = 0` and a changed value
resolved at run 5 yields the store with a new row appended and the old row
untouched. -/
theorem update_or_copy_copy_on_write_witness :
    update_or_copy_if_changed
        [⟨1, "v", "old", "text", "", false, 7, true, some 0, none⟩]
        ⟨1, "v", "old", "text", "", false, 7, true, some 0, none⟩ "new" "text" "" 5 =
      ([⟨1, "v", "old", "text", "", false, 7, true, some 0, none⟩,
        ⟨2, "v", "new", "text", "", false, 7, true, some 5, none⟩],
       ⟨2, "v", "new", "text", "", false, 7, true, some 5, none⟩) := by
  exact update_or_copy_copy_on_write
    [⟨1, "v", "old", "text", "", false, 7, true, some 0, none⟩]
    ⟨1, "v", "old", "text", "", false, 7, true, some 0, none⟩ "new" "text" "" 5
    (by decide) (by decide) (Or.inl (by decide))

/-- C7 failing input: the store holds an experiment-scoped row for
reference 1234567 and a run-range row (`start_run = 3`) of the same name;
resolving run 5 of experiment 1234567 through `create_run_variables`
selects the run-range row.  `create_run_variables` does not forward the
experiment reference to `find_or_make_variables`, so
`get(name=..., experiment_reference=None)` matches the `NULL`-scoped
run-range row and the experiment-scoped row never takes priority, contrary
to the docstrings of both functions ("Variables set for an Experiment
number will ALWAYS be used - top priority"). -/
theorem find_or_make_ignores_experiment_scope :
    create_run_variables
        [⟨1, "var1", "expval", "text", "", false, 7, false, none, some 1234567⟩,
         ⟨2, "var1", "rangeval", "text", "", false, 7, false, some 3, none⟩]
        [[("var1", PyValue.pstr "default")]]
        ⟨some 0, none, []⟩ ⟨none, none⟩ 1234567 5 7 =
      .ok ([⟨1, "var1", "expval", "text", "", false, 7, false, none, some 1234567⟩,
            ⟨2, "var1", "rangeval", "text", "", false, 7, false, some 3, none⟩],
           [⟨2, "var1", "rangeval", "text", "", false, 7, false, some 3, none⟩]) := by
  rfl

/-- C9 failing input: one tracked run-range row (`start_run = 0`, value
"old") and a script default of "new" for run 5.  The first resolution
performs the copy-on-write versioning and returns the new row; the second
resolution, on the store the first one left behind, raises
`MultipleObjectsReturned`, because `get(name=..., experiment_reference=None)`
now matches both `NULL`-scoped rows — instead of returning the same
snapshot with no new and no modified rows. -/
theorem find_or_make_not_idempotent :
    create_run_variables [⟨1, "v", "old", "text", "", false, 7, true, some 0, none⟩]
        [[("v", PyValue.pstr "new")]] ⟨some 0, none, []⟩ ⟨none, none⟩ 9999999 5 7 =
      .ok ([⟨1, "v", "old", "text", "", false, 7, true, some 0, none⟩,
            ⟨2, "v", "new", "text", "", false, 7, true, some 5, none⟩],
           [⟨2, "v", "new", "text", "", false, 7, true, some 5, none⟩]) ∧
    create_run_variables
        [⟨1, "v", "old", "text", "", false, 7, true, some 0, none⟩,
         ⟨2, "v", "new", "text", "", false, 7, true, some 5, none⟩]
        [[("v", PyValue.pstr "new")]] ⟨some 0, none, []⟩ ⟨none, none⟩ 9999999 5 7 =
      .error .multipleObjectsReturned := by
  exact ⟨rfl, rfl⟩

theorem dictFind_cons (p : String × PyValue) (rest : VarDict) (k : String) :
    dictFind (p :: rest) k = if p.1 == k then some p.2 else dictFind rest k := by
  by_cases h : (p.1 == k) = true <;> simp [dictFind, List.find?_cons, h]

theorem dictFind_dictSet_self (d : VarDict) (k : String) (v : PyValue) :
    dictFind (dictSet d k v) k = some v := by
  induction d with
  | nil => simp [dictSet, dictFind_cons, dictFind]
  | cons p rest ih =>
    by_cases h : (p.1 == k) = true
    · simp [dictSet, h, dictFind_cons]
    · simp [dictSet, h, dictFind_cons, ih]

theorem dictFind_dictSet_ne (d : VarDict) (k k2 : String) (v : PyValue)
    (h : k ≠ k2) :
    dictFind (dictSet d k v) k2 = dictFind d k2 := by
  induction d with
  | nil => simp [dictSet, dictFind_cons, dictFind, h]
  | cons p rest ih =>
    by_cases hp : (p.1 == k) = true
    · have hpk : p.1 = k := eq_of_beq hp
      simp [dictSet, hp, dictFind_cons, hpk, h]
    · simp [dictSet, hp, dictFind_cons, ih]

theorem swct_loop_preserves (entries : List (String × PyValue)) (d d2 : VarDict)
    (k : String) (hk : k ∉ entries.map (·.1))
    (hok : set_with_correct_type_loop entries d = .ok d2) :
    dictFind d2 k = dictFind d k := by
  induction entries generalizing d with
  | nil =>
    simp only [set_with_correct_type_loop, Except.ok.injEq] at hok
    rw [hok]
  | cons e rest ih =>
    cases hfind : dictFind d e.1 with
    | none => simp [set_with_correct_type_loop, hfind] at hok
    | some cur =>
      simp only [set_with_correct_type_loop, hfind] at hok
      simp only [List.map_cons, List.mem_cons, not_or] at hk
      have hkne : e.1 ≠ k := fun hh => hk.1 hh.symm
      exact (ih _ hk.2 hok).trans (dictFind_dictSet_ne d e.1 k _ hkne)

theorem swct_loop_ok (entries : List (String × PyValue)) (d : VarDict)
    (hnodup : (entries.map (·.1)).Nodup)
    (hpresent : ∀ p ∈ entries, (dictFind d p.1).isSome = true) :
    ∃ d2, set_with_correct_type_loop entries d = .ok d2 ∧
      ∀ p ∈ entries, ∀ cur, dictFind d p.1 = some cur →
        dictFind d2 p.1 = some (convert_variable_to_type p.2 (get_type_string cur)) := by
  induction entries generalizing d with
  | nil => exact ⟨d, rfl, by simp⟩
  | cons e rest ih =>
    obtain ⟨cur, hcur⟩ :=
      Option.isSome_iff_exists.mp (hpresent e (List.mem_cons_self e rest))
    simp only [List.map_cons, List.nodup_cons] at hnodup
    have hpres2 : ∀ p ∈ rest,
        (dictFind (dictSet d e.1 (convert_variable_to_type e.2 (get_type_string cur)))
          p.1).isSome = true := by
      intro p hp
      have hne : e.1 ≠ p.1 := fun hh => hnodup.1 (hh ▸ List.mem_map_of_mem (·.1) hp)
      rw [dictFind_dictSet_ne _ _ _ _ hne]
      exact hpresent p (List.mem_cons_of_mem e hp)
    obtain ⟨d2, hok, hvals⟩ :=
      ih (dictSet d e.1 (convert_variable_to_type e.2 (get_type_string cur)))
        hnodup.2 hpres2
    refine ⟨d2, ?_, ?_⟩
    · simp [set_with_correct_type_loop, hcur, hok]
    · intro p hp cur0 hcur0
      rcases List.mem_cons.mp hp with rfl | hp2
      · rw [hcur] at hcur0
        injection hcur0 with hcc
        subst hcc
        have hpre := swct_loop_preserves rest _ d2 p.1 hnodup.1 hok
        rw [hpre, dictFind_dictSet_self]
      · have hne : e.1 ≠ p.1 := fun hh => hnodup.1 (hh ▸ List.mem_map_of_mem (·.1) hp2)
        refine hvals p hp2 cur0 ?_
        rw [dictFind_dictSet_ne _ _ _ _ hne]
        exact hcur0

/-- Counterexample to C8 as stated: an override whose name is absent from
the script defaults is not silently dropped — the merge raises `KeyError`
(the source evaluates `reduction_args[dict_name][name]` for the unknown
name). -/
theorem set_with_correct_type_unknown_name_cex :
    set_with_correct_type_dict (some [("unknown_name", PyValue.pint 1)]) [] =
      .error .keyError := rfl

/-- C8 (amended): each override value is coerced to the type already
established for its name in the script defaults (`convert_variable_to_type`
applied to the type tag of the default value, not of the override's own
literal form); an override value whose name is not present in the script
defaults raises `KeyError`, failing the merge, rather than being silently
dropped. -/
theorem set_with_correct_type_spec (entries : List (String × PyValue)) (d : VarDict)
    (n : String) (v : PyValue) (rest : List (String × PyValue))
    (hnodup : (entries.map (·.1)).Nodup)
    (hpresent : ∀ p ∈ entries, (dictFind d p.1).isSome = true)
    (hmissing : dictFind d n = none) :
    (∃ d2, set_with_correct_type_dict (some entries) d = .ok d2 ∧
      ∀ p ∈ entries, ∀ cur, dictFind d p.1 = some cur →
        dictFind d2 p.1 = some (convert_variable_to_type p.2 (get_type_string cur))) ∧
    set_with_correct_type_dict (some ((n, v) :: rest)) d = .error .keyError := by
  refine ⟨?_, ?_⟩
  · simpa [set_with_correct_type_dict] using swct_loop_ok entries d hnodup hpresent
  · simp [set_with_correct_type_dict, set_with_correct_type_loop, hmissing]

/-- Witness for C8 (amended): an override "9" (a string literal) for a
numeric default is stored as the number 9, and an override under the
unknown name "zz" raises `KeyError`. -/
theorem set_with_correct_type_spec_witness :
    set_with_correct_type_dict (some [("b", PyValue.pstr "9")])
        [("a", PyValue.pstr "x"), ("b", PyValue.pint 3)] =
      .ok [("a", PyValue.pstr "x"), ("b", PyValue.pint 9)] ∧
    set_with_correct_type_dict (some [("zz", PyValue.pint 1)])
        [("a", PyValue.pstr "x"), ("b", PyValue.pint 3)] =
      .error .keyError := by
  have h := set_with_correct_type_spec [("b", PyValue.pstr "9")]
    [("a", PyValue.pstr "x"), ("b", PyValue.pint 3)] "zz" (PyValue.pint 1) []
    (by decide) (by decide) (by decide)
  exact ⟨rfl, h.2⟩

theorem getElem?_append_set_set (heap : List VarDict) (x y s t : VarDict) (a : Nat)
    (h : a < heap.length) :
    (((heap ++ [x, y]).set heap.length s).set (heap.length + 1) t)[a]? = heap[a]? := by
  have h1 : heap.length + 1 ≠ a := by omega
  have h2 : heap.length ≠ a := by omega
  rw [List.getElem?_set_ne h1, List.getElem?_set_ne h2, List.getElem?_append_left h]

/-- C10: `merge_arguments` operates on deep copies of the module's declared
dicts: for every heap, module and override map, whenever the merge
completes, the heap cells referenced by the module's `standard_vars` and
`advanced_vars` attributes hold the same dicts as before the call — even
when override coercion rewrote values in the returned merged arguments,
those writes went to the freshly allocated copies. -/
theorem merge_arguments_preserves_module (heap : List VarDict)
    (message_reduction_arguments : ReductionArguments)
    (reduce_vars_module : ReduceVarsModule) (heap2 : List VarDict) (args : MergedArgs)
    (hs : ∀ a, reduce_vars_module.standard_vars = some a → a < heap.length)
    (ha : ∀ a, reduce_vars_module.advanced_vars = some a → a < heap.length)
    (hok : merge_arguments heap message_reduction_arguments reduce_vars_module =
      .ok (heap2, args)) :
    heap_dict heap2 reduce_vars_module.standard_vars =
      heap_dict heap reduce_vars_module.standard_vars ∧
    heap_dict heap2 reduce_vars_module.advanced_vars =
      heap_dict heap reduce_vars_module.advanced_vars := by
  have key : ∀ a, a < heap.length → heap2[a]? = heap[a]? := by
    intro a hlt
    simp only [merge_arguments] at hok
    cases hstd : set_with_correct_type_dict message_reduction_arguments.standard_vars
        (heap_dict heap reduce_vars_module.standard_vars) with
    | error e => rw [hstd] at hok; exact absurd hok (by simp)
    | ok std1 =>
      rw [hstd] at hok
      cases hadv : set_with_correct_type_dict message_reduction_arguments.advanced_vars
          (heap_dict heap reduce_vars_module.advanced_vars) with
      | error e => rw [hadv] at hok; exact absurd hok (by simp)
      | ok adv1 =>
        rw [hadv] at hok
        simp only [Except.ok.injEq, Prod.mk.injEq] at hok
        rw [← hok.1, getElem?_append_set_set _ _ _ _ _ _ hlt]
  constructor
  · cases hsv : reduce_vars_module.standard_vars with
    | none => rfl
    | some a => simp [heap_dict, key a (hs a hsv)]
  · cases hav : reduce_vars_module.advanced_vars with
    | none => rfl
    | some a => simp [heap_dict, key a (ha a hav)]

/-- Witness for C10: a module whose standard_vars dict is heap cell 0 with
value `{x: 5}`, overridden by `{x: "9"}`; the merge returns `{x: 9}` (the
override coerced to the established numeric type) while cell 0 still holds
`{x: 5}`. -/
theorem merge_arguments_preserves_module_witness :
    merge_arguments [[("x", PyValue.pint 5)]]
        ⟨some [("x", PyValue.pstr "9")], none⟩ ⟨some 0, none, []⟩ =
      .ok ([[("x", PyValue.pint 5)], [("x", PyValue.pint 9)], []],
           ⟨[("x", PyValue.pint 9)], [], []⟩) ∧
    heap_dict [[("x", PyValue.pint 5)], [("x", PyValue.pint 9)], []] (some 0) =
      heap_dict [[("x", PyValue.pint 5)]] (some 0) := by
  refine ⟨rfl, ?_⟩
  exact (merge_arguments_preserves_module [[("x", PyValue.pint 5)]]
    ⟨some [("x", PyValue.pstr "9")], none⟩ ⟨some 0, none, []⟩
    [[("x", PyValue.pint 5)], [("x", PyValue.pint 9)], []]
    ⟨[("x", PyValue.pint 9)], [], []⟩
    (fun a h => by injection h with h2; subst h2; decide)
    (fun a h => Option.noConfusion h) rfl).1

end Autoreduce
